import Mathlib

/-!
# Verification of the Oceanographic Summary & Threat Assessment Engine

Shallow embedding, in Lean 4, of the data-aggregation and threat-scoring
layer of the coastal-monitoring dashboard: the per-parameter reducer and
risk tiers, the oceanographic summary aggregator, the coastal threat
assessment, the historical trend analyzer, the parameter data provider's
dataset lookup/error paths, and the presentation-layer fallback generator.

Numbers are embedded as rationals (`ℚ`).  JavaScript's `Math.round` is
embedded as `⌊x + 1/2⌋` (round half toward positive infinity), which agrees
with it at every rational input.  Where JavaScript would produce `NaN`
(division by a zero length), the rational embedding produces `0`; every
theorem below that touches such a spot is stated so that its truth value
does not depend on that convention.
-/

/-- Discrete per-parameter risk tier: `'low' | 'medium' | 'high'`. -/
inductive Risk where
  | low
  | medium
  | high
deriving DecidableEq, Repr

/-- Trend direction: `'increasing' | 'decreasing' | 'stable'`. -/
inductive Trend where
  | increasing
  | decreasing
  | stable
deriving DecidableEq, Repr

/-- Threat level: `'low' | 'medium' | 'high' | 'critical'`. -/
inductive ThreatLevel where
  | low
  | medium
  | high
  | critical
deriving DecidableEq, Repr

/-- One SST sample (`SSTData` in `earthdata-api`): the fields the engine
reads downstream (`timestamp`, `value`, `anomaly`). -/
structure SSTData where
  timestamp : ℚ := 0
  value : ℚ
  anomaly : ℚ := 0
deriving DecidableEq, Repr

/-- One sea-level sample (`SeaLevelData`). -/
structure SeaLevelData where
  timestamp : ℚ := 0
  value : ℚ
deriving DecidableEq, Repr

/-- One chlorophyll sample (`ChlorophyllData`): `value` plus the
`bloomRisk` tag copied into the summary. -/
structure ChlorophyllData where
  timestamp : ℚ := 0
  value : ℚ
  bloomRisk : String := "low"
deriving DecidableEq, Repr

/-- One wind sample (`WindData`): the reducer reads `speed`, the summary
copies `direction`. -/
structure WindData where
  timestamp : ℚ := 0
  value : ℚ := 0
  speed : ℚ
  direction : ℚ := 0
deriving DecidableEq, Repr

/-- One rainfall sample (`RainfallData`): the reducer sums `accumulation`,
the summary copies `intensity`. -/
structure RainfallData where
  timestamp : ℚ := 0
  value : ℚ := 0
  accumulation : ℚ
  intensity : String := "light"
deriving DecidableEq, Repr

/-- `dataQuality` block of a response's metadata. -/
structure DataQuality where
  completeness : ℚ
  accuracy : ℚ
deriving DecidableEq, Repr

/-- Metadata accompanying a batch of observations (`EarthdataResponse.metadata`). -/
structure QueryMetadata where
  totalCount : ℕ
  startDate : String
  endDate : String
  boundingBox : ℚ × ℚ × ℚ × ℚ
  resolution : String
  dataQuality : DataQuality
deriving DecidableEq, Repr

/-- `EarthdataResponse<T>`: observation batch, metadata, optional error string. -/
structure EarthdataResponse (α : Type) where
  data : List α
  metadata : QueryMetadata
  error : Option String := none
deriving DecidableEq, Repr

/-- JavaScript `Math.round`: round half toward positive infinity. -/
def jsRound (x : ℚ) : ℤ := ⌊x + 1/2⌋

/-- `Math.round(x * 100) / 100` — round to 2 decimal places. -/
def roundTo2 (x : ℚ) : ℚ := (jsRound (x * 100) : ℚ) / 100

/-- `Math.round(x * 1000) / 1000` — round to 3 decimal places. -/
def roundTo3 (x : ℚ) : ℚ := (jsRound (x * 1000) : ℚ) / 1000

/-- `Math.round(x * 10) / 10` — round to 1 decimal place. -/
def roundTo1 (x : ℚ) : ℚ := (jsRound (x * 10) : ℚ) / 10

/-- `Math.round(x * 1000000) / 1000000` — round to 6 decimal places. -/
def roundTo6 (x : ℚ) : ℚ := (jsRound (x * 1000000) : ℚ) / 1000000

/-- `data.reduce((sum, point) => sum + point.value, 0) / data.length` for SST. -/
def sstAvg (data : List SSTData) : ℚ :=
  data.foldl (fun sum point => sum + point.value) 0 / (data.length : ℚ)

/-- Sea-level average over the `value` field. -/
def seaLevelAvg (data : List SeaLevelData) : ℚ :=
  data.foldl (fun sum point => sum + point.value) 0 / (data.length : ℚ)

/-- Chlorophyll average over the `value` field. -/
def chlorophyllAvg (data : List ChlorophyllData) : ℚ :=
  data.foldl (fun sum point => sum + point.value) 0 / (data.length : ℚ)

/-- Wind average over the `speed` field. -/
def windAvg (data : List WindData) : ℚ :=
  data.foldl (fun sum point => sum + point.speed) 0 / (data.length : ℚ)

/-- `rainfallData.data.reduce((sum, point) => sum + point.accumulation, 0)`:
the rainfall reduction is a sum, not an average. -/
def rainfallTotal (data : List RainfallData) : ℚ :=
  data.foldl (fun sum point => sum + point.accumulation) 0

/-- `sstAvg > 30 ? 'high' : sstAvg > 28 ? 'medium' : 'low'`. -/
def sstRisk (avg : ℚ) : Risk :=
  if avg > 30 then .high else if avg > 28 then .medium else .low

/-- `Math.abs(seaLevelAvg) > 0.5 ? 'high' : Math.abs(seaLevelAvg) > 0.3 ? 'medium' : 'low'`. -/
def seaLevelRisk (avg : ℚ) : Risk :=
  if |avg| > 1/2 then .high else if |avg| > 3/10 then .medium else .low

/-- `chlorophyllAvg > 1.0 ? 'high' : chlorophyllAvg > 0.5 ? 'medium' : 'low'`. -/
def chlorophyllRisk (avg : ℚ) : Risk :=
  if avg > 1 then .high else if avg > 1/2 then .medium else .low

/-- `windAvg > 15 ? 'high' : windAvg > 10 ? 'medium' : 'low'`. -/
def windRisk (avg : ℚ) : Risk :=
  if avg > 15 then .high else if avg > 10 then .medium else .low

/-- `rainfallTotal > 50 ? 'high' : rainfallTotal > 25 ? 'medium' : 'low'`. -/
def rainfallRisk (total : ℚ) : Risk :=
  if total > 50 then .high else if total > 25 then .medium else .low

/-- The per-parameter trend ternary of `useOceanographicSummary`:
`data.length > 1 ? ((data[data.length - 1] - data[0]) > 0 ? 'increasing'
: 'decreasing') : 'stable'`, with `value` selecting the compared field. -/
def trendOf {α : Type} (value : α → ℚ) (data : List α) : Trend :=
  if data.length > 1 then
    if ((data.getLast?.map value).getD 0 - (data.head?.map value).getD 0) > 0 then
      .increasing
    else
      .decreasing
  else
    .stable

/-- `[...risks].filter(risk => risk === 'high').length > 2 ? 'high' :
...length > 0 ? 'medium' : 'low'`. -/
def overallRiskOf (risks : List Risk) : Risk :=
  if (risks.filter fun r => decide (r = .high)).length > 2 then .high
  else if (risks.filter fun r => decide (r = .high)).length > 0 then .medium
  else .low

/-- `parameters.seaSurfaceTemperature` block of the summary. -/
structure SSTSummary where
  value : ℚ
  unit : String
  risk : Risk
  trend : Trend
deriving DecidableEq, Repr

/-- `parameters.seaLevel` block of the summary. -/
structure SeaLevelSummary where
  value : ℚ
  unit : String
  risk : Risk
  trend : Trend
deriving DecidableEq, Repr

/-- `parameters.chlorophyll` block of the summary. -/
structure ChlorophyllSummary where
  value : ℚ
  unit : String
  risk : Risk
  bloomRisk : String
deriving DecidableEq, Repr

/-- `parameters.wind` block of the summary. -/
structure WindSummary where
  speed : ℚ
  unit : String
  risk : Risk
  direction : ℚ
deriving DecidableEq, Repr

/-- `parameters.rainfall` block of the summary. -/
structure RainfallSummary where
  total : ℚ
  unit : String
  risk : Risk
  intensity : String
deriving DecidableEq, Repr

/-- The `parameters` object of an `OceanographicSummary`. -/
structure SummaryParameters where
  seaSurfaceTemperature : SSTSummary
  seaLevel : SeaLevelSummary
  chlorophyll : ChlorophyllSummary
  wind : WindSummary
  rainfall : RainfallSummary
deriving DecidableEq, Repr

/-- The `dataQuality` object of an `OceanographicSummary` (one
`dataQuality` record copied from each of the five responses). -/
structure SummaryDataQuality where
  sst : DataQuality
  seaLevel : DataQuality
  chlorophyll : DataQuality
  wind : DataQuality
  rainfall : DataQuality
deriving DecidableEq, Repr

/-- `location` object: bounding box plus its center point. -/
structure LocationBlock where
  boundingBox : ℚ × ℚ × ℚ × ℚ
  centerLat : ℚ
  centerLng : ℚ
deriving DecidableEq, Repr

/-- The aggregator's output (`useOceanographicSummary`'s memoized value
in its non-null branch). -/
structure OceanographicSummary where
  timestamp : String
  location : LocationBlock
  parameters : SummaryParameters
  overallRisk : Risk
  dataQuality : SummaryDataQuality
deriving DecidableEq, Repr

/-- The non-null branch of `useOceanographicSummary`'s memo: reduce the
five responses to averages/total, derive per-parameter risks, trends,
rounded presentation values, the overall risk and the quality block. -/
def buildSummary (now : String) (bbox : ℚ × ℚ × ℚ × ℚ)
    (sstData : EarthdataResponse SSTData)
    (seaLevelData : EarthdataResponse SeaLevelData)
    (chlorophyllData : EarthdataResponse ChlorophyllData)
    (windData : EarthdataResponse WindData)
    (rainfallData : EarthdataResponse RainfallData) : OceanographicSummary :=
  let sstAvgV := sstAvg sstData.data
  let seaLevelAvgV := seaLevelAvg seaLevelData.data
  let chlorophyllAvgV := chlorophyllAvg chlorophyllData.data
  let windAvgV := windAvg windData.data
  let rainfallTotalV := rainfallTotal rainfallData.data
  { timestamp := now
    location :=
      { boundingBox := bbox
        centerLat := (bbox.1 + bbox.2.2.1) / 2
        centerLng := (bbox.2.1 + bbox.2.2.2) / 2 }
    parameters :=
      { seaSurfaceTemperature :=
          { value := roundTo2 sstAvgV
            unit := "°C"
            risk := sstRisk sstAvgV
            trend := trendOf (fun p => p.value) sstData.data }
        seaLevel :=
          { value := roundTo3 seaLevelAvgV
            unit := "m"
            risk := seaLevelRisk seaLevelAvgV
            trend := trendOf (fun p => p.value) seaLevelData.data }
        chlorophyll :=
          { value := roundTo3 chlorophyllAvgV
            unit := "mg/m³"
            risk := chlorophyllRisk chlorophyllAvgV
            bloomRisk := ((chlorophyllData.data.head?.map fun p => p.bloomRisk).getD "low") }
        wind :=
          { speed := roundTo1 windAvgV
            unit := "m/s"
            risk := windRisk windAvgV
            direction := ((windData.data.head?.map fun p => p.direction).getD 0) }
        rainfall :=
          { total := roundTo2 rainfallTotalV
            unit := "mm"
            risk := rainfallRisk rainfallTotalV
            intensity := ((rainfallData.data.head?.map fun p => p.intensity).getD "light") } }
    overallRisk :=
      overallRiskOf [sstRisk sstAvgV, seaLevelRisk seaLevelAvgV,
        chlorophyllRisk chlorophyllAvgV, windRisk windAvgV,
        rainfallRisk rainfallTotalV]
    dataQuality :=
      { sst := sstData.metadata.dataQuality
        seaLevel := seaLevelData.metadata.dataQuality
        chlorophyll := chlorophyllData.metadata.dataQuality
        wind := windData.metadata.dataQuality
        rainfall := rainfallData.metadata.dataQuality } }

/-- `useOceanographicSummary`'s memo: the guard
`if (!sstData?.data || ... || !rainfallData?.data) return null` — a
response that has not arrived (is `none`) makes the whole summary `none`;
otherwise the summary is built.  (Note the JavaScript guard tests only
nullishness of the `data` field: an *empty* `data` array passes it.) -/
def summarize (now : String) (bbox : ℚ × ℚ × ℚ × ℚ)
    (sstData : Option (EarthdataResponse SSTData))
    (seaLevelData : Option (EarthdataResponse SeaLevelData))
    (chlorophyllData : Option (EarthdataResponse ChlorophyllData))
    (windData : Option (EarthdataResponse WindData))
    (rainfallData : Option (EarthdataResponse RainfallData)) :
    Option OceanographicSummary :=
  match sstData, seaLevelData, chlorophyllData, windData, rainfallData with
  | some s, some l, some c, some w, some r =>
      some (buildSummary now bbox s l c w r)
  | _, _, _, _, _ => none

/-- The threat engine's output (`useCoastalThreatAssessment`'s memoized
value in its non-null branch). -/
structure ThreatAssessment where
  threatScore : ℕ
  threatLevel : ThreatLevel
  threatFactors : List String
  recommendations : List String
  timestamp : String
  location : LocationBlock
  parameters : SummaryParameters
deriving DecidableEq, Repr

/-- Non-null branch of `useCoastalThreatAssessment`: five independent
additive conditions (evaluated in the order SST, sea level, chlorophyll,
wind, rainfall), then descending first-match level thresholds. -/
def assessSummary (oceanSummary : OceanographicSummary) : ThreatAssessment :=
  let score0 : ℕ := 0
  let factors0 : List String := []
  let recs0 : List String := []
  let step1 :=
    if oceanSummary.parameters.seaSurfaceTemperature.risk = .high then
      (score0 + 25, factors0 ++ ["Elevated sea surface temperature"],
        recs0 ++ ["Monitor for coral bleaching and marine heat waves"])
    else (score0, factors0, recs0)
  let step2 :=
    if oceanSummary.parameters.seaLevel.risk = .high then
      (step1.1 + 30, step1.2.1 ++ ["Abnormal sea level variations"],
        step1.2.2 ++ ["Prepare for potential coastal flooding"])
    else step1
  let step3 :=
    if oceanSummary.parameters.chlorophyll.risk = .high then
      (step2.1 + 20, step2.2.1 ++ ["High chlorophyll concentration"],
        step2.2.2 ++ ["Monitor for harmful algal blooms"])
    else step2
  let step4 :=
    if oceanSummary.parameters.wind.risk = .high then
      (step3.1 + 15, step3.2.1 ++ ["High wind speeds"],
        step3.2.2 ++ ["Prepare for storm conditions"])
    else step3
  let step5 :=
    if oceanSummary.parameters.rainfall.risk = .high then
      (step4.1 + 20, step4.2.1 ++ ["Heavy rainfall"],
        step4.2.2 ++ ["Monitor for runoff and water quality issues"])
    else step4
  let threatScore := step5.1
  let threatLevel : ThreatLevel :=
    if threatScore ≥ 80 then .critical
    else if threatScore ≥ 60 then .high
    else if threatScore ≥ 30 then .medium
    else .low
  { threatScore := threatScore
    threatLevel := threatLevel
    threatFactors := step5.2.1
    recommendations := step5.2.2
    timestamp := oceanSummary.timestamp
    location := oceanSummary.location
    parameters := oceanSummary.parameters }

/-- `useCoastalThreatAssessment`'s memo: `if (!oceanSummary) return null`. -/
def assess (oceanSummary : Option OceanographicSummary) : Option ThreatAssessment :=
  oceanSummary.map assessSummary

/-- A dataset-registry entry (`EarthdataDataset`); `lastUpdated` (a wall
clock read in the source) is omitted. -/
structure EarthdataDataset where
  id : String
  name : String
  variableNames : List String
  temporalResolution : String
  spatialResolution : String
deriving DecidableEq, Repr

/-- The ten fixed registry entries built by `initializeDatasets`. -/
def datasets : List EarthdataDataset :=
  [ { id := "MUR_SST", name := "MUR Sea Surface Temperature",
      variableNames := ["sst", "sst_anomaly"],
      temporalResolution := "daily", spatialResolution := "1km" },
    { id := "GHRSST_L4", name := "GHRSST Level 4 SST",
      variableNames := ["sst", "quality"],
      temporalResolution := "daily", spatialResolution := "5km" },
    { id := "AVISO_SLA", name := "AVISO Sea Level Anomaly",
      variableNames := ["sla", "adt", "ugos", "vgos"],
      temporalResolution := "daily", spatialResolution := "0.25°" },
    { id := "JASON_SLA", name := "Jason Sea Level Anomaly",
      variableNames := ["sla", "wind_speed", "wave_height"],
      temporalResolution := "10-day", spatialResolution := "0.2°" },
    { id := "OCEANCOLOR_CHL", name := "Ocean Color Chlorophyll",
      variableNames := ["chlor_a", "chlor_a_anom", "quality"],
      temporalResolution := "8-day", spatialResolution := "4km" },
    { id := "VIIRS_CHL", name := "VIIRS Chlorophyll",
      variableNames := ["chlor_a", "nflh", "quality"],
      temporalResolution := "daily", spatialResolution := "750m" },
    { id := "ASCAT_WIND", name := "ASCAT Wind",
      variableNames := ["wind_speed", "wind_direction", "quality"],
      temporalResolution := "daily", spatialResolution := "25km" },
    { id := "CCMP_WIND", name := "CCMP Wind",
      variableNames := ["uwnd", "vwnd", "wind_speed", "quality"],
      temporalResolution := "6-hourly", spatialResolution := "0.25°" },
    { id := "IMERG_RAIN", name := "IMERG Rainfall",
      variableNames := ["precipitation", "precipitation_quality", "latent_heat"],
      temporalResolution := "30-minute", spatialResolution := "0.1°" },
    { id := "TRMM_RAIN", name := "TRMM Rainfall",
      variableNames := ["precipitation", "precipitation_quality", "latent_heat"],
      temporalResolution := "3-hourly", spatialResolution := "0.25°" } ]

/-- `this.datasets.get(datasetId)`. -/
def datasetsGet (datasetId : String) : Option EarthdataDataset :=
  datasets.find? fun d => d.id == datasetId

/-- Query parameters of a provider call. -/
structure FetchParams where
  startDate : String
  endDate : String
  boundingBox : Option (ℚ × ℚ × ℚ × ℚ) := none
  dataset : Option String := none

/-- `getSSTData`.  The registry lookup and its `throw new Error(...)`
happen *before* the `try`, so an unknown dataset id escapes as a thrown
exception (`Except.error`); only a failure inside the mock-generation
step (the `generated` argument, which abstracts the randomized
`generateMockSSTData`) is caught and turned into the result-carrying
failure response. -/
def getSSTData (params : FetchParams)
    (generated : Except String (List SSTData)) :
    Except String (EarthdataResponse SSTData) :=
  let dataset := params.dataset.getD "MUR_SST"
  match datasetsGet dataset with
  | none => Except.error ("Dataset " ++ dataset ++ " not found")
  | some datasetInfo =>
    match generated with
    | Except.ok mockData =>
        Except.ok
          { data := mockData
            metadata :=
              { totalCount := mockData.length
                startDate := params.startDate
                endDate := params.endDate
                boundingBox := params.boundingBox.getD (-90, -180, 90, 180)
                resolution := datasetInfo.spatialResolution
                dataQuality := { completeness := 95/100, accuracy := 92/100 } }
            error := none }
    | Except.error e =>
        Except.ok
          { data := []
            metadata :=
              { totalCount := 0
                startDate := params.startDate
                endDate := params.endDate
                boundingBox := (0, 0, 0, 0)
                resolution := "unknown"
                dataQuality := { completeness := 0, accuracy := 0 } }
            error := some e }

/-- The card's parameter discriminator:
`'sst' | 'seaLevel' | 'chlorophyll' | 'wind' | 'rainfall'`. -/
inductive CardParameter where
  | sst
  | seaLevel
  | chlorophyll
  | wind
  | rainfall
deriving DecidableEq, Repr

/-- One entry of `generateDynamicFallbackData`'s `baseData` table (the
fields the value/risk/quality computation reads). -/
structure FallbackBase where
  baseValue : ℚ
  unit : String
  quality : ℚ
  rangeMin : ℚ
  rangeMax : ℚ
deriving DecidableEq, Repr

/-- The `baseData` table of `generateDynamicFallbackData`. -/
def fallbackBase : CardParameter → FallbackBase
  | .sst =>
      { baseValue := 57/2, unit := "°C", quality := 85/100,
        rangeMin := 25, rangeMax := 32 }
  | .seaLevel =>
      { baseValue := 12/100, unit := "m", quality := 90/100,
        rangeMin := -(2/10), rangeMax := 3/10 }
  | .chlorophyll =>
      { baseValue := 8/10, unit := "mg/m³", quality := 75/100,
        rangeMin := 1/10, rangeMax := 2 }
  | .wind =>
      { baseValue := 25/2, unit := "m/s", quality := 88/100,
        rangeMin := 5, rangeMax := 25 }
  | .rainfall =>
      { baseValue := 21/10, unit := "mm", quality := 82/100,
        rangeMin := 0, rangeMax := 10 }

/-- The jittered, clamped fallback value: `randomFactor = 0.9 +
Math.random() * 0.2`, `clampedValue = Math.max(range.min,
Math.min(range.max, baseValue * randomFactor))`, with `u ∈ [0,1)` the
random draw. -/
def fallbackClampedValue (param : CardParameter) (u : ℚ) : ℚ :=
  let data := fallbackBase param
  let randomFactor := 9/10 + u * (2/10)
  let randomValue := data.baseValue * randomFactor
  max data.rangeMin (min data.rangeMax randomValue)

/-- The fallback generator's risk derivation: `let dynamicRisk = 'low'`,
then four independent `if` statements, each assigning `'medium'`. -/
def fallbackDynamicRisk (param : CardParameter) (clampedValue : ℚ) : Risk :=
  let risk0 := Risk.low
  let risk1 := if param = .sst ∧ clampedValue > 30 then Risk.medium else risk0
  let risk2 := if param = .wind ∧ clampedValue > 20 then Risk.medium else risk1
  let risk3 := if param = .rainfall ∧ clampedValue > 5 then Risk.medium else risk2
  let risk4 := if param = .chlorophyll ∧ clampedValue > 3/2 then Risk.medium else risk3
  risk4

/-- The Per-Parameter Reducer's risk tier, as a function of the reduced
value, per card parameter (the five ternaries of
`useOceanographicSummary`). -/
def reducerRisk : CardParameter → ℚ → Risk
  | .sst, v => sstRisk v
  | .seaLevel, v => seaLevelRisk v
  | .chlorophyll, v => chlorophyllRisk v
  | .wind, v => windRisk v
  | .rainfall, v => rainfallRisk v

/-- Output record of `generateDynamicFallbackData` (common fields). -/
structure FallbackData where
  value : ℚ
  unit : String
  risk : Risk
  trend : Trend
  quality : ℚ
deriving DecidableEq, Repr

/-- `generateDynamicFallbackData`: jitter the base value by ±10%
(multiplicative, draw `u`), clamp to the per-kind range, re-derive risk
with `fallbackDynamicRisk`, and jitter quality by ±2.5% (additively,
draw `v`, clamped to `[0.7, 0.95]`). -/
def generateDynamicFallbackData (param : CardParameter) (u v : ℚ) : FallbackData :=
  let data := fallbackBase param
  let clampedValue := fallbackClampedValue param u
  let dynamicRisk := fallbackDynamicRisk param clampedValue
  let qualityVariation : ℚ := 5/100
  let dynamicQuality := max (7/10) (min (95/100) (data.quality + (v - 1/2) * qualityVariation))
  { value := roundTo2 clampedValue
    unit := data.unit
    risk := dynamicRisk
    trend := Trend.stable
    quality := dynamicQuality }

/-- `Math.min(...values)` over a non-empty list (`0` on `[]`, unused). -/
def listMin : List ℚ → ℚ
  | [] => 0
  | v :: vs => vs.foldl min v

/-- `Math.max(...values)` over a non-empty list (`0` on `[]`, unused). -/
def listMax : List ℚ → ℚ
  | [] => 0
  | v :: vs => vs.foldl max v

/-- The closed-form least-squares slope of `useHistoricalTrends`:
`(n·Σxy − Σx·Σy) / (n·Σx² − (Σx)²)` with the four running sums
accumulated exactly as the source's `reduce` calls do. -/
def olsSlope (timestamps values : List ℚ) : ℚ :=
  let n : ℚ := (values.length : ℚ)
  let sumX := timestamps.foldl (fun sum t => sum + t) 0
  let sumY := values.foldl (fun sum v => sum + v) 0
  let sumXY := (timestamps.zip values).foldl (fun sum p => sum + p.1 * p.2) 0
  let sumXX := timestamps.foldl (fun sum t => sum + t * t) 0
  (n * sumXY - sumX * sumY) / (n * sumXX - sumX * sumX)

/-- `slope > 0.001 ? 'increasing' : slope < -0.001 ? 'decreasing' : 'stable'`. -/
def trendFromSlope (slope : ℚ) : Trend :=
  if slope > 1/1000 then .increasing
  else if slope < -(1/1000) then .decreasing
  else .stable

/-- `statistics` block of `useHistoricalTrends`'s result. -/
structure TrendStatistics where
  min : ℚ
  max : ℚ
  average : ℚ
  trend : Trend
  slope : ℚ
  dataPoints : ℕ
deriving DecidableEq, Repr

/-- `useHistoricalTrends`'s memoized result for one parameter. -/
structure TrendResult (α : Type) where
  parameter : String
  timeRange : String × String
  statistics : TrendStatistics
  data : List α
  metadata : QueryMetadata
deriving DecidableEq, Repr

/-- `useHistoricalTrends`'s memo for the selected parameter:
`if (!data?.data || data.data.length === 0) return null`, then the
least-squares slope over (timestamp, scalar) with the scalar being
`point.speed` for wind and `point.value` otherwise (`valueOf`), and the
min/max/average statistics. -/
def historicalTrends {α : Type} (parameter : String)
    (valueOf timestampOf : α → ℚ) (startDate endDate : String)
    (resp : Option (EarthdataResponse α)) : Option (TrendResult α) :=
  match resp with
  | none => none
  | some d =>
    if d.data.length = 0 then none
    else
      let values := d.data.map valueOf
      let timestamps := d.data.map timestampOf
      let n : ℚ := (values.length : ℚ)
      let slope := olsSlope timestamps values
      let trend := trendFromSlope slope
      some
        { parameter := parameter
          timeRange := (startDate, endDate)
          statistics :=
            { min := listMin values
              max := listMax values
              average := values.foldl (fun sum v => sum + v) 0 / n
              trend := trend
              slope := roundTo6 slope
              dataPoints := values.length }
          data := d.data
          metadata := d.metadata }

example : sstRisk 28 = .low := by norm_num [sstRisk]
example : sstRisk 30 = .medium := by norm_num [sstRisk]
example : sstRisk (301/10) = .high := by norm_num [sstRisk]
example : trendOf id [(25 : ℚ), 25, 25] = .decreasing := by norm_num [trendOf]
example : overallRiskOf [.high, .high, .low, .low, .low] = .medium := by decide

/-- Folding `+ f x` from an accumulator equals the accumulator plus the
sum of the mapped list (the shape of every `reduce((sum, p) => sum + …, 0)`
in the engine). -/
lemma foldl_add_eq_sum {α : Type} (f : α → ℚ) (l : List α) (a : ℚ) :
    l.foldl (fun sum x => sum + f x) a = a + (l.map f).sum := by
  induction l generalizing a with
  | nil => simp
  | cons x xs ih => simp [ih]; ring

/-- **C6.** For every non-empty observation sequence, the reducer's
representative value is the arithmetic mean of the `value` field for SST,
sea level and chlorophyll, the arithmetic mean of the `speed` field for
wind, and the *sum* (not mean) of the `accumulation` field for rainfall. -/
theorem reducer_mean_and_sum (s : List SSTData) (l : List SeaLevelData)
    (c : List ChlorophyllData) (w : List WindData) (r : List RainfallData) :
    (s ≠ [] → sstAvg s = (s.map fun p => p.value).sum / (s.length : ℚ)) ∧
    (l ≠ [] → seaLevelAvg l = (l.map fun p => p.value).sum / (l.length : ℚ)) ∧
    (c ≠ [] → chlorophyllAvg c = (c.map fun p => p.value).sum / (c.length : ℚ)) ∧
    (w ≠ [] → windAvg w = (w.map fun p => p.speed).sum / (w.length : ℚ)) ∧
    (r ≠ [] → rainfallTotal r = (r.map fun p => p.accumulation).sum) := by
  refine ⟨fun _ => ?_, fun _ => ?_, fun _ => ?_, fun _ => ?_, fun _ => ?_⟩ <;>
    simp [sstAvg, seaLevelAvg, chlorophyllAvg, windAvg, rainfallTotal,
      foldl_add_eq_sum]

/-- **C6 witness.** The reduction laws evaluated on concrete two-element
sequences. -/
theorem reducer_mean_and_sum_witness :
    sstAvg [{ value := 1 }, { value := 2 }] = ([1, 2] : List ℚ).sum / 2 ∧
    rainfallTotal [{ accumulation := 3 }, { accumulation := 4 }] =
      ([3, 4] : List ℚ).sum := by
  have h := reducer_mean_and_sum [{ value := 1 }, { value := 2 }] []
    [] [] [{ accumulation := 3 }, { accumulation := 4 }]
  refine ⟨?_, ?_⟩
  · simpa using h.1 (by simp)
  · simpa using h.2.2.2.2 (by simp)

/-- **C2.** The claim asserts SST boundaries are inclusive-low
(exactly 28.0 yields medium); the code compares with strict `>`:
an SST mean of exactly 28.0 is assigned `'low'`.  Boundary evaluation of
the code: 28.0 → low (divergence), 30.0 → medium, 30.1 → high. -/
theorem sstRisk_boundary_evaluation :
    sstRisk 28 = Risk.low ∧ sstRisk 30 = Risk.medium ∧
    sstRisk (301/10) = Risk.high := by
  norm_num [sstRisk]

/-- **C5 counterexample.** A three-observation SST sequence whose last
value equals its first is classified `'decreasing'`, not `'stable'`:
`(last - first) > 0` is false, and the code's ternary has no
equality branch. -/
theorem trend_equal_values_not_stable :
    trendOf (fun p => p.value)
        ([{ value := 25 }, { value := 25 }, { value := 25 }] : List SSTData) =
      Trend.decreasing ∧
    trendOf (fun p => p.value)
        ([{ value := 1 }, { value := 2 }] : List SSTData) = Trend.increasing := by
  constructor <;> norm_num [trendOf]

/-- **C5 amended.** The trend is `'stable'` iff the sequence has fewer
than 2 observations; for 2 or more it is `'increasing'` iff the last
value is strictly greater than the first and `'decreasing'` otherwise
(including when last equals first). -/
theorem trendOf_rule {α : Type} (f : α → ℚ) (data : List α) :
    (trendOf f data = Trend.stable ↔ data.length ≤ 1) ∧
    (trendOf f data = Trend.increasing ↔
      1 < data.length ∧ (data.head?.map f).getD 0 < (data.getLast?.map f).getD 0) ∧
    (trendOf f data = Trend.decreasing ↔
      1 < data.length ∧ (data.getLast?.map f).getD 0 ≤ (data.head?.map f).getD 0) := by
  unfold trendOf
  split_ifs with h1 h2
  · exact ⟨⟨fun h => (nomatch h), fun h => absurd h1 (by omega)⟩,
      ⟨fun _ => ⟨h1, sub_pos.mp h2⟩, fun _ => rfl⟩,
      ⟨fun h => (nomatch h),
        fun h => absurd (sub_pos.mp h2) (not_lt.mpr h.2)⟩⟩
  · exact ⟨⟨fun h => (nomatch h), fun h => absurd h1 (by omega)⟩,
      ⟨fun h => (nomatch h),
        fun h => absurd h.2 (not_lt.mpr (sub_nonpos.mp (not_lt.mp h2)))⟩,
      ⟨fun _ => ⟨h1, sub_nonpos.mp (not_lt.mp h2)⟩, fun _ => rfl⟩⟩
  · exact ⟨⟨fun _ => by omega, fun _ => rfl⟩,
      ⟨fun h => (nomatch h), fun h => absurd h.1 (by omega)⟩,
      ⟨fun h => (nomatch h), fun h => absurd h.1 (by omega)⟩⟩

/-- All-zero metadata block used to build concrete test responses. -/
def mkMeta : QueryMetadata :=
  { totalCount := 0, startDate := "", endDate := "", boundingBox := (0, 0, 0, 0),
    resolution := "", dataQuality := { completeness := 0, accuracy := 0 } }

/-- A concrete error-free response carrying the given observation batch. -/
def mkResp {α : Type} (data : List α) : EarthdataResponse α :=
  { data := data, metadata := mkMeta, error := none }

/-- **C1 counterexample.** Five present responses of which the SST one has
an *empty* data array: the aggregator still produces a summary (the JS
guard `!sstData?.data` tests only nullishness, and an empty array is
truthy; the SST mean is then a division by a zero observation count). -/
theorem summarize_some_on_empty_sst_data :
    (summarize "" (18, 72, 20, 75)
        (some (mkResp ([] : List SSTData)))
        (some (mkResp [({ value := 1/10 } : SeaLevelData)]))
        (some (mkResp [({ value := 3/10 } : ChlorophyllData)]))
        (some (mkResp [({ speed := 5 } : WindData)]))
        (some (mkResp [({ accumulation := 2 } : RainfallData)]))).isSome = true :=
  rfl

/-- **C1 amended.** The aggregator returns `none` exactly when one of the
five responses is itself absent (`null`/`undefined` data); an empty data
array does not trigger the no-data path, so the summary is built with its
SST/sea-level/chlorophyll/wind means computed by dividing by a zero
observation count (`NaN` in JavaScript). -/
theorem summarize_none_iff_missing_response (now : String)
    (bbox : ℚ × ℚ × ℚ × ℚ)
    (a : Option (EarthdataResponse SSTData))
    (b : Option (EarthdataResponse SeaLevelData))
    (c : Option (EarthdataResponse ChlorophyllData))
    (d : Option (EarthdataResponse WindData))
    (e : Option (EarthdataResponse RainfallData)) :
    summarize now bbox a b c d e = none ↔
      a = none ∨ b = none ∨ c = none ∨ d = none ∨ e = none := by
  cases a <;> cases b <;> cases c <;> cases d <;> cases e <;> simp [summarize]

/-- **C4 counterexample.** At the reachable jittered SST fallback value 31
(draw `u = 107/114`, no clamping), the fallback generator derives risk
`'medium'` while the reducer's SST threshold function yields `'high'`:
the two tierings are not the same function of the value. -/
theorem fallback_tier_differs_from_reducer :
    fallbackDynamicRisk .sst (fallbackClampedValue .sst (107/114)) = Risk.medium ∧
    reducerRisk .sst (fallbackClampedValue .sst (107/114)) = Risk.high := by
  have h : fallbackClampedValue .sst (107/114) = 31 := by
    norm_num [fallbackClampedValue, fallbackBase, min_def, max_def]
  rw [h]
  constructor
  · norm_num [fallbackDynamicRisk]
  · norm_num [reducerRisk, sstRisk]

/-- **C4 amended.** The fallback generator's risk derivation uses its own
thresholds, different from the reducer's: it assigns `'medium'` exactly
when SST > 30, wind > 20, rainfall > 5 or chlorophyll > 1.5, it never
assigns `'high'`, and every sea-level fallback is `'low'`. -/
theorem fallbackDynamicRisk_spec (p : CardParameter) (v : ℚ) :
    fallbackDynamicRisk p v ≠ Risk.high ∧
    (fallbackDynamicRisk p v = Risk.medium ↔
      (p = .sst ∧ v > 30) ∨ (p = .wind ∧ v > 20) ∨
      (p = .rainfall ∧ v > 5) ∨ (p = .chlorophyll ∧ v > 3/2)) ∧
    fallbackDynamicRisk .seaLevel v = Risk.low := by
  cases p <;> simp only [fallbackDynamicRisk] <;> split_ifs <;> simp_all

/-- **C3 counterexample.** A fetch with a dataset id absent from the
registry makes `getSSTData` propagate a thrown exception
(`throw new Error(...)` sits *before* the `try`), not return a
result-carrying failure response. -/
theorem getSSTData_throws_on_unknown_dataset :
    getSSTData
        { startDate := "2024-01-01", endDate := "2024-01-02",
          dataset := some "UNKNOWN_SET" } (Except.ok []) =
      Except.error "Dataset UNKNOWN_SET not found" := by
  rfl

/-- **C3 amended.** When the supplied (or defaulted) dataset id is not in
the registry, the provider propagates the exception
`"Dataset <id> not found"` to the caller; the result-carrying failure
(empty observations, zeroed metadata, non-empty error string) is produced
only when the registry lookup succeeds and the generation step inside the
`try` fails. -/
theorem getSSTData_error_paths (params : FetchParams)
    (generated : Except String (List SSTData)) :
    (datasetsGet (params.dataset.getD "MUR_SST") = none →
      getSSTData params generated =
        Except.error ("Dataset " ++ params.dataset.getD "MUR_SST" ++ " not found")) ∧
    (∀ info e, datasetsGet (params.dataset.getD "MUR_SST") = some info →
      generated = Except.error e →
      getSSTData params generated = Except.ok
        { data := []
          metadata :=
            { totalCount := 0
              startDate := params.startDate
              endDate := params.endDate
              boundingBox := (0, 0, 0, 0)
              resolution := "unknown"
              dataQuality := { completeness := 0, accuracy := 0 } }
          error := some e }) := by
  constructor
  · intro h
    simp [getSSTData, h]
  · intro info e h hg
    simp [getSSTData, h, hg]

/-- **C3 witness.** The two error paths at concrete calls: an unknown id
propagates the exception; a generation failure under the default
(registered) id yields the result-carrying failure. -/
theorem getSSTData_error_paths_witness :
    getSSTData { startDate := "s", endDate := "e", dataset := some "NOPE" }
        (Except.ok []) = Except.error "Dataset NOPE not found" ∧
    getSSTData { startDate := "s", endDate := "e" }
        (Except.error "boom") = Except.ok
      { data := []
        metadata :=
          { totalCount := 0, startDate := "s", endDate := "e",
            boundingBox := (0, 0, 0, 0), resolution := "unknown",
            dataQuality := { completeness := 0, accuracy := 0 } }
        error := some "boom" } := by
  constructor
  · exact (getSSTData_error_paths
      { startDate := "s", endDate := "e", dataset := some "NOPE" }
      (Except.ok [])).1 rfl
  · exact (getSSTData_error_paths
      { startDate := "s", endDate := "e" } (Except.error "boom")).2
      { id := "MUR_SST", name := "MUR Sea Surface Temperature",
        variableNames := ["sst", "sst_anomaly"],
        temporalResolution := "daily", spatialResolution := "1km" }
      "boom" rfl rfl

/-- The threat score accumulated by `assessSummary` is the sum of the five
independent per-parameter deltas. -/
lemma assessSummary_score (s : OceanographicSummary) :
    (assessSummary s).threatScore =
      (if s.parameters.seaSurfaceTemperature.risk = .high then 25 else 0) +
      (if s.parameters.seaLevel.risk = .high then 30 else 0) +
      (if s.parameters.chlorophyll.risk = .high then 20 else 0) +
      (if s.parameters.wind.risk = .high then 15 else 0) +
      (if s.parameters.rainfall.risk = .high then 20 else 0) := by
  dsimp only [assessSummary]
  split_ifs <;> rfl

/-- The factor list built by `assessSummary` is the ordered concatenation
of the per-parameter factor texts of the high-risk parameters. -/
lemma assessSummary_factors (s : OceanographicSummary) :
    (assessSummary s).threatFactors =
      (if s.parameters.seaSurfaceTemperature.risk = .high then
        ["Elevated sea surface temperature"] else []) ++
      (if s.parameters.seaLevel.risk = .high then
        ["Abnormal sea level variations"] else []) ++
      (if s.parameters.chlorophyll.risk = .high then
        ["High chlorophyll concentration"] else []) ++
      (if s.parameters.wind.risk = .high then
        ["High wind speeds"] else []) ++
      (if s.parameters.rainfall.risk = .high then
        ["Heavy rainfall"] else []) := by
  dsimp only [assessSummary]
  split_ifs <;> rfl

/-- The recommendation list built by `assessSummary` is the ordered
concatenation of the per-parameter recommendations of the high-risk
parameters. -/
lemma assessSummary_recs (s : OceanographicSummary) :
    (assessSummary s).recommendations =
      (if s.parameters.seaSurfaceTemperature.risk = .high then
        ["Monitor for coral bleaching and marine heat waves"] else []) ++
      (if s.parameters.seaLevel.risk = .high then
        ["Prepare for potential coastal flooding"] else []) ++
      (if s.parameters.chlorophyll.risk = .high then
        ["Monitor for harmful algal blooms"] else []) ++
      (if s.parameters.wind.risk = .high then
        ["Prepare for storm conditions"] else []) ++
      (if s.parameters.rainfall.risk = .high then
        ["Monitor for runoff and water quality issues"] else []) := by
  dsimp only [assessSummary]
  split_ifs <;> rfl

/-- The threat level is derived from the accumulated score by the
descending first-match thresholds 80/60/30. -/
lemma assessSummary_level (s : OceanographicSummary) :
    (assessSummary s).threatLevel =
      (if (assessSummary s).threatScore ≥ 80 then ThreatLevel.critical
       else if (assessSummary s).threatScore ≥ 60 then ThreatLevel.high
       else if (assessSummary s).threatScore ≥ 30 then ThreatLevel.medium
       else ThreatLevel.low) := by
  dsimp only [assessSummary]

/-- **C7.** The threat score is the sum of independent per-parameter
deltas (+25 SST, +30 sea level, +20 chlorophyll, +15 wind, +20 rainfall,
each firing iff that risk is high); the factor and recommendation lists
hold exactly the entries of the high-risk parameters in the fixed order
SST, sea level, chlorophyll, wind, rainfall; and a summary with SST,
sea level and wind high and the other two low scores 25+30+15 = 70. -/
theorem threat_score_additive (s : OceanographicSummary) :
    ((assessSummary s).threatScore =
      (if s.parameters.seaSurfaceTemperature.risk = .high then 25 else 0) +
      (if s.parameters.seaLevel.risk = .high then 30 else 0) +
      (if s.parameters.chlorophyll.risk = .high then 20 else 0) +
      (if s.parameters.wind.risk = .high then 15 else 0) +
      (if s.parameters.rainfall.risk = .high then 20 else 0)) ∧
    ((assessSummary s).threatFactors =
      (if s.parameters.seaSurfaceTemperature.risk = .high then
        ["Elevated sea surface temperature"] else []) ++
      (if s.parameters.seaLevel.risk = .high then
        ["Abnormal sea level variations"] else []) ++
      (if s.parameters.chlorophyll.risk = .high then
        ["High chlorophyll concentration"] else []) ++
      (if s.parameters.wind.risk = .high then
        ["High wind speeds"] else []) ++
      (if s.parameters.rainfall.risk = .high then
        ["Heavy rainfall"] else [])) ∧
    ((assessSummary s).recommendations =
      (if s.parameters.seaSurfaceTemperature.risk = .high then
        ["Monitor for coral bleaching and marine heat waves"] else []) ++
      (if s.parameters.seaLevel.risk = .high then
        ["Prepare for potential coastal flooding"] else []) ++
      (if s.parameters.chlorophyll.risk = .high then
        ["Monitor for harmful algal blooms"] else []) ++
      (if s.parameters.wind.risk = .high then
        ["Prepare for storm conditions"] else []) ++
      (if s.parameters.rainfall.risk = .high then
        ["Monitor for runoff and water quality issues"] else [])) ∧
    (s.parameters.seaSurfaceTemperature.risk = .high →
      s.parameters.seaLevel.risk = .high →
      s.parameters.wind.risk = .high →
      s.parameters.chlorophyll.risk = .low →
      s.parameters.rainfall.risk = .low →
      (assessSummary s).threatScore = 70) := by
  refine ⟨assessSummary_score s, assessSummary_factors s, assessSummary_recs s,
    fun h1 h2 h3 h4 h5 => ?_⟩
  rw [assessSummary_score s, h1, h2, h3, h4, h5]
  simp

/-- A concrete summary with SST, sea level and wind high, chlorophyll and
rainfall low. -/
def summaryHHL : OceanographicSummary :=
  { timestamp := ""
    location := { boundingBox := (18, 72, 20, 75), centerLat := 19, centerLng := 735/10 }
    parameters :=
      { seaSurfaceTemperature :=
          { value := 31, unit := "°C", risk := .high, trend := .stable }
        seaLevel := { value := 6/10, unit := "m", risk := .high, trend := .stable }
        chlorophyll := { value := 3/10, unit := "mg/m³", risk := .low, bloomRisk := "low" }
        wind := { speed := 16, unit := "m/s", risk := .high, direction := 180 }
        rainfall := { total := 2, unit := "mm", risk := .low, intensity := "light" } }
    overallRisk := .high
    dataQuality :=
      { sst := ⟨0, 0⟩, seaLevel := ⟨0, 0⟩, chlorophyll := ⟨0, 0⟩,
        wind := ⟨0, 0⟩, rainfall := ⟨0, 0⟩ } }

/-- **C7 witness.** The additive scoring applied at the concrete
high/high/low/high/low summary: score 70. -/
theorem threat_score_additive_witness :
    (assessSummary summaryHHL).threatScore = 70 :=
  (threat_score_additive summaryHHL).2.2.2 rfl rfl rfl rfl rfl

/-- **C8.** The threat level is determined by descending first-match
thresholds (≥80 critical, ≥60 high, ≥30 medium, else low); the score is
not clamped to 100 — all five parameters high yields score 110 and level
critical; and a score of 0 forces level low with empty factor and
recommendation lists. -/
theorem threat_level_thresholds (s : OceanographicSummary) :
    ((assessSummary s).threatLevel =
      (if (assessSummary s).threatScore ≥ 80 then ThreatLevel.critical
       else if (assessSummary s).threatScore ≥ 60 then ThreatLevel.high
       else if (assessSummary s).threatScore ≥ 30 then ThreatLevel.medium
       else ThreatLevel.low)) ∧
    (s.parameters.seaSurfaceTemperature.risk = .high →
      s.parameters.seaLevel.risk = .high →
      s.parameters.chlorophyll.risk = .high →
      s.parameters.wind.risk = .high →
      s.parameters.rainfall.risk = .high →
      (assessSummary s).threatScore = 110 ∧
      (assessSummary s).threatLevel = ThreatLevel.critical) ∧
    ((assessSummary s).threatScore = 0 →
      (assessSummary s).threatLevel = ThreatLevel.low ∧
      (assessSummary s).threatFactors = [] ∧
      (assessSummary s).recommendations = []) := by
  refine ⟨assessSummary_level s, fun h1 h2 h3 h4 h5 => ?_, fun h0 => ?_⟩
  · have hsc : (assessSummary s).threatScore = 110 := by
      rw [assessSummary_score s, h1, h2, h3, h4, h5]; simp
    refine ⟨hsc, ?_⟩
    rw [assessSummary_level s, hsc]
    norm_num
  · have hs := assessSummary_score s
    rw [h0] at hs
    have c1 : ¬ s.parameters.seaSurfaceTemperature.risk = .high := by
      intro hh; rw [hh] at hs; simp at hs; try omega
    have c2 : ¬ s.parameters.seaLevel.risk = .high := by
      intro hh; rw [hh] at hs; simp at hs; try omega
    have c3 : ¬ s.parameters.chlorophyll.risk = .high := by
      intro hh; rw [hh] at hs; simp at hs; try omega
    have c4 : ¬ s.parameters.wind.risk = .high := by
      intro hh; rw [hh] at hs; simp at hs; try omega
    have c5 : ¬ s.parameters.rainfall.risk = .high := by
      intro hh; rw [hh] at hs; simp at hs; try omega
    refine ⟨?_, ?_, ?_⟩
    · rw [assessSummary_level s, h0]; norm_num
    · rw [assessSummary_factors s]; simp [c1, c2, c3, c4, c5]
    · rw [assessSummary_recs s]; simp [c1, c2, c3, c4, c5]

/-- A concrete summary with every per-parameter risk high. -/
def summaryAllHigh : OceanographicSummary :=
  { timestamp := ""
    location := { boundingBox := (18, 72, 20, 75), centerLat := 19, centerLng := 735/10 }
    parameters :=
      { seaSurfaceTemperature :=
          { value := 31, unit := "°C", risk := .high, trend := .stable }
        seaLevel := { value := 6/10, unit := "m", risk := .high, trend := .stable }
        chlorophyll := { value := 2, unit := "mg/m³", risk := .high, bloomRisk := "high" }
        wind := { speed := 16, unit := "m/s", risk := .high, direction := 180 }
        rainfall := { total := 60, unit := "mm", risk := .high, intensity := "heavy" } }
    overallRisk := .high
    dataQuality :=
      { sst := ⟨0, 0⟩, seaLevel := ⟨0, 0⟩, chlorophyll := ⟨0, 0⟩,
        wind := ⟨0, 0⟩, rainfall := ⟨0, 0⟩ } }

/-- A concrete summary with every per-parameter risk low. -/
def summaryAllLow : OceanographicSummary :=
  { timestamp := ""
    location := { boundingBox := (18, 72, 20, 75), centerLat := 19, centerLng := 735/10 }
    parameters :=
      { seaSurfaceTemperature :=
          { value := 27, unit := "°C", risk := .low, trend := .stable }
        seaLevel := { value := 1/10, unit := "m", risk := .low, trend := .stable }
        chlorophyll := { value := 3/10, unit := "mg/m³", risk := .low, bloomRisk := "low" }
        wind := { speed := 5, unit := "m/s", risk := .low, direction := 180 }
        rainfall := { total := 2, unit := "mm", risk := .low, intensity := "light" } }
    overallRisk := .low
    dataQuality :=
      { sst := ⟨0, 0⟩, seaLevel := ⟨0, 0⟩, chlorophyll := ⟨0, 0⟩,
        wind := ⟨0, 0⟩, rainfall := ⟨0, 0⟩ } }

/-- **C8 witness.** The all-high summary scores 110 with level critical
(no clamping), and the all-low summary has level low with empty lists. -/
theorem threat_level_thresholds_witness :
    ((assessSummary summaryAllHigh).threatScore = 110 ∧
      (assessSummary summaryAllHigh).threatLevel = ThreatLevel.critical) ∧
    ((assessSummary summaryAllLow).threatLevel = ThreatLevel.low ∧
      (assessSummary summaryAllLow).threatFactors = [] ∧
      (assessSummary summaryAllLow).recommendations = []) :=
  ⟨(threat_level_thresholds summaryAllHigh).2.1 rfl rfl rfl rfl rfl,
    (threat_level_thresholds summaryAllLow).2.2 rfl⟩

/-- `[...].filter(risk => risk === 'high').length` — the count of high
per-parameter risks used by the aggregator's overall-risk rule. -/
def highCount (risks : List Risk) : ℕ :=
  (risks.filter fun r => decide (r = .high)).length

/-- The overall-risk rule as a function of the high count. -/
lemma overallRiskOf_byCount (risks : List Risk) :
    (2 < highCount risks → overallRiskOf risks = Risk.high) ∧
    ((highCount risks = 1 ∨ highCount risks = 2) →
      overallRiskOf risks = Risk.medium) ∧
    (highCount risks = 0 → overallRiskOf risks = Risk.low) := by
  unfold overallRiskOf highCount
  split_ifs with h1 h2
  · exact ⟨fun _ => rfl, fun h => by omega, fun h => by omega⟩
  · exact ⟨fun h => by omega, fun _ => rfl, fun h => by omega⟩
  · exact ⟨fun h => by omega, fun h => by omega, fun _ => rfl⟩

/-- **C9.** The overall risk of a built summary is a function of how many
of the five per-parameter risk tiers are high: more than 2 yields
overall high, 1 or 2 yields medium, 0 yields low. -/
theorem overall_risk_from_high_count (now : String) (bbox : ℚ × ℚ × ℚ × ℚ)
    (a : EarthdataResponse SSTData) (b : EarthdataResponse SeaLevelData)
    (c : EarthdataResponse ChlorophyllData) (d : EarthdataResponse WindData)
    (e : EarthdataResponse RainfallData) :
    ((buildSummary now bbox a b c d e).overallRisk =
      overallRiskOf [sstRisk (sstAvg a.data), seaLevelRisk (seaLevelAvg b.data),
        chlorophyllRisk (chlorophyllAvg c.data), windRisk (windAvg d.data),
        rainfallRisk (rainfallTotal e.data)]) ∧
    (2 < highCount [sstRisk (sstAvg a.data), seaLevelRisk (seaLevelAvg b.data),
        chlorophyllRisk (chlorophyllAvg c.data), windRisk (windAvg d.data),
        rainfallRisk (rainfallTotal e.data)] →
      (buildSummary now bbox a b c d e).overallRisk = Risk.high) ∧
    ((highCount [sstRisk (sstAvg a.data), seaLevelRisk (seaLevelAvg b.data),
        chlorophyllRisk (chlorophyllAvg c.data), windRisk (windAvg d.data),
        rainfallRisk (rainfallTotal e.data)] = 1 ∨
      highCount [sstRisk (sstAvg a.data), seaLevelRisk (seaLevelAvg b.data),
        chlorophyllRisk (chlorophyllAvg c.data), windRisk (windAvg d.data),
        rainfallRisk (rainfallTotal e.data)] = 2) →
      (buildSummary now bbox a b c d e).overallRisk = Risk.medium) ∧
    (highCount [sstRisk (sstAvg a.data), seaLevelRisk (seaLevelAvg b.data),
        chlorophyllRisk (chlorophyllAvg c.data), windRisk (windAvg d.data),
        rainfallRisk (rainfallTotal e.data)] = 0 →
      (buildSummary now bbox a b c d e).overallRisk = Risk.low) := by
  have hb : (buildSummary now bbox a b c d e).overallRisk =
      overallRiskOf [sstRisk (sstAvg a.data), seaLevelRisk (seaLevelAvg b.data),
        chlorophyllRisk (chlorophyllAvg c.data), windRisk (windAvg d.data),
        rainfallRisk (rainfallTotal e.data)] := rfl
  have hc := overallRiskOf_byCount
    [sstRisk (sstAvg a.data), seaLevelRisk (seaLevelAvg b.data),
      chlorophyllRisk (chlorophyllAvg c.data), windRisk (windAvg d.data),
      rainfallRisk (rainfallTotal e.data)]
  exact ⟨hb, fun h => hb.trans (hc.1 h), fun h => hb.trans (hc.2.1 h),
    fun h => hb.trans (hc.2.2 h)⟩

/-- **C9 witness.** All five singleton responses reduce to high risks
(count 5 > 2), and the built summary's overall risk is high. -/
theorem overall_risk_from_high_count_witness :
    (buildSummary "" (0, 0, 0, 0) (mkResp [{ value := 31 }])
      (mkResp [{ value := 1 }]) (mkResp [{ value := 2 }])
      (mkResp [{ speed := 16 }]) (mkResp [{ accumulation := 60 }])).overallRisk =
      Risk.high := by
  refine (overall_risk_from_high_count "" (0, 0, 0, 0) (mkResp [{ value := 31 }])
    (mkResp [{ value := 1 }]) (mkResp [{ value := 2 }])
    (mkResp [{ speed := 16 }]) (mkResp [{ accumulation := 60 }])).2.1 ?_
  have h1 : sstRisk (sstAvg (mkResp [{ value := 31 }]).data) = Risk.high := by
    norm_num [sstRisk, sstAvg, mkResp]
  have h2 : seaLevelRisk (seaLevelAvg (mkResp [{ value := 1 }]).data) = Risk.high := by
    norm_num [seaLevelRisk, seaLevelAvg, mkResp]
  have h3 : chlorophyllRisk (chlorophyllAvg (mkResp [{ value := 2 }]).data) = Risk.high := by
    norm_num [chlorophyllRisk, chlorophyllAvg, mkResp]
  have h4 : windRisk (windAvg (mkResp [{ speed := 16 }]).data) = Risk.high := by
    norm_num [windRisk, windAvg, mkResp]
  have h5 : rainfallRisk (rainfallTotal (mkResp [{ accumulation := 60 }]).data) = Risk.high := by
    norm_num [rainfallRisk, rainfallTotal, mkResp]
  rw [highCount, h1, h2, h3, h4, h5]
  norm_num

/-- Classification of `trendFromSlope` by slope comparisons. -/
lemma trendFromSlope_rule (slope : ℚ) :
    (trendFromSlope slope = Trend.increasing ↔ slope > 1/1000) ∧
    (trendFromSlope slope = Trend.decreasing ↔ slope < -(1/1000)) ∧
    (trendFromSlope slope = Trend.stable ↔
      ¬ slope > 1/1000 ∧ ¬ slope < -(1/1000)) := by
  unfold trendFromSlope
  split_ifs with h1 h2
  · exact ⟨⟨fun _ => h1, fun _ => rfl⟩,
      ⟨fun h => (nomatch h), fun h => absurd h (by linarith)⟩,
      ⟨fun h => (nomatch h), fun h => absurd h1 h.1⟩⟩
  · exact ⟨⟨fun h => (nomatch h), fun h => absurd h h1⟩,
      ⟨fun _ => h2, fun _ => rfl⟩,
      ⟨fun h => (nomatch h), fun h => absurd h2 h.2⟩⟩
  · exact ⟨⟨fun h => (nomatch h), fun h => absurd h h1⟩,
      ⟨fun h => (nomatch h), fun h => absurd h h2⟩,
      ⟨fun _ => ⟨h1, h2⟩, fun _ => rfl⟩⟩

/-- **C10.** On a missing or empty series the trend analyzer returns
`none`; on a non-empty series it returns a result whose slope is the
ordinary least-squares closed form `(n·Σxy − Σx·Σy) / (n·Σx² − (Σx)²)`
over (timestamp, scalar) pairs (reported rounded to 6 decimal places),
and whose trend is increasing iff the slope exceeds 0.001, decreasing iff
it is below −0.001, and stable otherwise. -/
theorem historical_trends_spec {α : Type} (parameter : String)
    (valueOf timestampOf : α → ℚ) (startDate endDate : String)
    (resp : EarthdataResponse α) :
    (historicalTrends parameter valueOf timestampOf startDate endDate
        (none : Option (EarthdataResponse α)) = none) ∧
    (resp.data = [] →
      historicalTrends parameter valueOf timestampOf startDate endDate
        (some resp) = none) ∧
    (resp.data ≠ [] →
      ∃ tr, historicalTrends parameter valueOf timestampOf startDate endDate
          (some resp) = some tr ∧
        olsSlope (resp.data.map timestampOf) (resp.data.map valueOf) =
          ((resp.data.length : ℚ) *
              (((resp.data.map timestampOf).zip (resp.data.map valueOf)).map
                fun p => p.1 * p.2).sum -
            (resp.data.map timestampOf).sum * (resp.data.map valueOf).sum) /
          ((resp.data.length : ℚ) *
              ((resp.data.map timestampOf).map fun t => t * t).sum -
            (resp.data.map timestampOf).sum * (resp.data.map timestampOf).sum) ∧
        tr.statistics.slope =
          roundTo6 (olsSlope (resp.data.map timestampOf) (resp.data.map valueOf)) ∧
        (tr.statistics.trend = Trend.increasing ↔
          olsSlope (resp.data.map timestampOf) (resp.data.map valueOf) > 1/1000) ∧
        (tr.statistics.trend = Trend.decreasing ↔
          olsSlope (resp.data.map timestampOf) (resp.data.map valueOf) < -(1/1000)) ∧
        (tr.statistics.trend = Trend.stable ↔
          ¬ olsSlope (resp.data.map timestampOf) (resp.data.map valueOf) > 1/1000 ∧
          ¬ olsSlope (resp.data.map timestampOf) (resp.data.map valueOf) < -(1/1000))) := by
  refine ⟨rfl, fun h => ?_, fun h => ?_⟩
  · simp [historicalTrends, h]
  · have hlen : ¬ resp.data.length = 0 := by simpa using h
    have heq : historicalTrends parameter valueOf timestampOf startDate endDate
        (some resp) =
        some { parameter := parameter
               timeRange := (startDate, endDate)
               statistics :=
                 { min := listMin (resp.data.map valueOf)
                   max := listMax (resp.data.map valueOf)
                   average := (resp.data.map valueOf).foldl (fun sum v => sum + v) 0 /
                     (((resp.data.map valueOf).length : ℕ) : ℚ)
                   trend := trendFromSlope
                     (olsSlope (resp.data.map timestampOf) (resp.data.map valueOf))
                   slope := roundTo6
                     (olsSlope (resp.data.map timestampOf) (resp.data.map valueOf))
                   dataPoints := (resp.data.map valueOf).length }
               data := resp.data
               metadata := resp.metadata } := by
      show (if resp.data.length = 0 then none else _) = _
      rw [if_neg hlen]
    refine ⟨_, heq, ?_, ?_, ?_, ?_, ?_⟩
    · simp only [olsSlope, List.length_map]
      rw [foldl_add_eq_sum (fun t => t) (resp.data.map timestampOf) 0,
        foldl_add_eq_sum (fun v => v) (resp.data.map valueOf) 0,
        foldl_add_eq_sum (fun p => p.1 * p.2)
          ((resp.data.map timestampOf).zip (resp.data.map valueOf)) 0,
        foldl_add_eq_sum (fun t => t * t) (resp.data.map timestampOf) 0]
      simp [Function.comp_def]
    · rfl
    · exact (trendFromSlope_rule _).1
    · exact (trendFromSlope_rule _).2.1
    · exact (trendFromSlope_rule _).2.2

/-- **C10 witness.** The analyzer applied to a concrete two-point series
(timestamps 0 and 2, values 0 and 1, least-squares slope 1/2 > 0.001)
returns a result classified increasing. -/
theorem historical_trends_spec_witness :
    ∃ tr, historicalTrends "sst" (fun p : SSTData => p.value)
        (fun p => p.timestamp) "s" "e"
        (some (mkResp [{ timestamp := 0, value := 0 },
          { timestamp := 2, value := 1 }])) = some tr ∧
      tr.statistics.trend = Trend.increasing := by
  obtain ⟨tr, h1, _, _, h4, _, _⟩ :=
    (historical_trends_spec "sst" (fun p : SSTData => p.value)
      (fun p => p.timestamp) "s" "e"
      (mkResp [{ timestamp := 0, value := 0 },
        { timestamp := 2, value := 1 }])).2.2 (by simp [mkResp])
  exact ⟨tr, h1, h4.mpr (by norm_num [olsSlope, mkResp, List.zip_cons_cons])⟩

/-- **C1 amended witness.** With the SST response absent, the aggregator
returns `none` at a concrete input. -/
theorem summarize_none_iff_missing_response_witness :
    summarize "" (0, 0, 0, 0) (none : Option (EarthdataResponse SSTData))
      (some (mkResp ([] : List SeaLevelData)))
      (some (mkResp ([] : List ChlorophyllData)))
      (some (mkResp ([] : List WindData)))
      (some (mkResp ([] : List RainfallData))) = none :=
  (summarize_none_iff_missing_response "" (0, 0, 0, 0) none
    (some (mkResp ([] : List SeaLevelData)))
    (some (mkResp ([] : List ChlorophyllData)))
    (some (mkResp ([] : List WindData)))
    (some (mkResp ([] : List RainfallData)))).mpr (Or.inl rfl)

/-- **C4 amended witness.** The fallback thresholds evaluated at a
concrete input: wind 21 m/s is tiered medium by the fallback generator. -/
theorem fallbackDynamicRisk_spec_witness :
    fallbackDynamicRisk .wind 21 = Risk.medium :=
  (fallbackDynamicRisk_spec .wind 21).2.1.mpr
    (Or.inr (Or.inl ⟨rfl, by norm_num⟩))

/-- **C5 amended witness.** A single-observation series is classified
stable. -/
theorem trendOf_rule_witness :
    trendOf (fun p : SSTData => p.value) [{ value := 3 }] = Trend.stable :=
  (trendOf_rule (fun p : SSTData => p.value) [{ value := 3 }]).1.mpr (by simp)
